import Mathlib

/-!
Verification of the column/page layout scripts of the diagramacao repository
(scribus-xml-dual-columns.py and scribus-xml-single-column.py).

Geometry is modelled over the rationals.  The Scribus host is modelled as an
oracle whose answers (frame geometry, overflow flag, line count, text
distances, call success/failure) are explicit inputs of each embedded
function, so that every source function becomes a pure, executable Lean
definition.
-/

namespace Diagramacao

/-! ## Units conversion (mm_to_pt, both drivers) -/

/-- Millimetre to point conversion, from mm_to_pt in both drivers:
mm * 72.0 / 25.4. -/
def mm_to_pt (mm : ℚ) : ℚ := mm * 72.0 / 25.4

/-! ## Content model and flattening (get_flattened_items,
scribus-xml-dual-columns.py lines 389-426) -/

/-- One section as read from the XML: a title string and the list of
paragraph bodies. -/
structure Secao where
  titulo : String
  textos : List String
deriving DecidableEq

/-- Kind tag of a flattened item (the source uses the strings "title" and
"text"). -/
inductive ItemType where
  | title : ItemType
  | text : ItemType
deriving DecidableEq

/-- One flattened content item, mirroring the dictionaries built by
get_flattened_items. -/
structure Item where
  type : ItemType
  text : String
  section_index : Nat
  item_index_in_section : Nat
deriving DecidableEq

/-- The inner loop of get_flattened_items over the texts of one section:
emits an item for each text whose trimmed body is non-empty, threading the
counter text_counter_in_section (incremented only on emission). -/
def flatten_texts (section_index : Nat) : Nat → List String → List Item
  | _, [] => []
  | counter, t :: rest =>
    if t.trim ≠ "" then
      { type := ItemType.text, text := t, section_index := section_index,
        item_index_in_section := counter } :: flatten_texts section_index (counter + 1) rest
    else
      flatten_texts section_index counter rest

/-- The per-section body of get_flattened_items: a title item when the
trimmed title is non-empty (with item_index_in_section 0), followed by the
emitted text items. -/
def flatten_section (section_index : Nat) (sec : Secao) : List Item :=
  (if sec.titulo.trim ≠ "" then
    [{ type := ItemType.title, text := sec.titulo.trim, section_index := section_index,
       item_index_in_section := 0 }]
   else []) ++ flatten_texts section_index 0 sec.textos

/-- get_flattened_items (dual-columns driver, lines 389-426): concatenation
of the per-section blocks, sections enumerated in order. -/
def get_flattened_items (secs : List Secao) : List Item :=
  (secs.enum.map (fun p => flatten_section p.1 p.2)).flatten

/-- Modelled from the claim wording for comparison: per section in order, a
title item exactly when the trimmed title is non-empty, then one paragraph
item per paragraph with non-empty trimmed text, indexed by a 0-based counter
over the emitted paragraphs only. -/
def flattened_items_spec (secs : List Secao) : List Item :=
  (secs.enum.map (fun p =>
    (if p.2.titulo.trim ≠ "" then
      [{ type := ItemType.title, text := p.2.titulo.trim, section_index := p.1,
         item_index_in_section := 0 }]
     else [])
    ++ ((p.2.textos.filter (fun t => t.trim ≠ "")).enum.map (fun q =>
         ({ type := ItemType.text, text := q.2, section_index := p.1,
            item_index_in_section := q.1 } : Item))))).flatten

lemma flatten_texts_eq_enumFrom (si : Nat) :
    ∀ (l : List String) (c : Nat),
      flatten_texts si c l =
        ((l.filter (fun t => t.trim ≠ "")).enumFrom c).map (fun q =>
          ({ type := ItemType.text, text := q.2, section_index := si,
             item_index_in_section := q.1 } : Item)) := by
  intro l
  induction l with
  | nil => intro c; simp [flatten_texts]
  | cons t rest ih =>
    intro c
    by_cases h : t.trim = ""
    · simp [flatten_texts, h, List.filter_cons, ih c]
    · simp [flatten_texts, h, List.filter_cons, List.enumFrom, ih (c + 1)]

/-! ## Bold font lookup (find_bold_font, identical in both drivers) -/

/-- One-position match of a character pattern at the head of a list. -/
def chars_match_at : List Char → List Char → Bool
  | [], _ => true
  | _ :: _, [] => false
  | a :: as, b :: bs => a == b && chars_match_at as bs

/-- Containment of a character pattern anywhere in a list. -/
def chars_contain (needle : List Char) : List Char → Bool
  | [] => needle.isEmpty
  | h :: t => chars_match_at needle (h :: t) || chars_contain needle t

/-- Substring containment, modelling the Python `in` operator on strings. -/
def contains_substr (hay needle : String) : Bool := chars_contain needle.data hay.data

/-- The first matching common style token is stripped from the end of the
name (the Python loop over the candidate endings, with break on first hit). -/
def strip_first_ending : List String → String → String
  | [], s => s
  | suf :: rest, s =>
    if s.endsWith suf then s.dropRight suf.length else strip_first_ending rest s

/-- The bold terms checked against the current font name. -/
def negrito_terms : List String := ["Bold", "Black", "Heavy", "Semibold"]

/-- find_bold_font (dual-columns lines 313-387, single-column lines
173-247): the list of available fonts is the answer of
scribus.getFontNames, passed explicitly. -/
def find_bold_font (fontes_disponiveis : List String) (current_font : String) :
    Option String :=
  let nome_base := strip_first_ending
    [" Regular", " Italic", " Bold", " Light", " Thin", " Medium", " Black", " Roman"]
    current_font
  if negrito_terms.any (fun term => contains_substr current_font term) then
    some current_font
  else
    let variacoes_negrito_base :=
      [nome_base ++ " Bold", nome_base ++ "-Bold",
       nome_base ++ " Semibold", nome_base ++ "-Semibold",
       nome_base ++ " Heavy", nome_base ++ "-Heavy",
       nome_base ++ " Black", nome_base ++ "-Black"]
    match variacoes_negrito_base.find? (fun cand => fontes_disponiveis.contains cand) with
    | some cand => some cand
    | none =>
      let fonte_sem_sufixo := strip_first_ending [" Regular", " Italic", " Roman"] current_font
      let variacao_direta := fonte_sem_sufixo ++ " Bold"
      if variacao_direta != current_font && fontes_disponiveis.contains variacao_direta then
        some variacao_direta
      else
        let nome_base_lower := nome_base.toLower
        let palavras_negrito_lower := ["bold", "semibold", "heavy", "black"]
        fontes_disponiveis.find? (fun nome_completo =>
          contains_substr nome_completo.toLower nome_base_lower &&
          palavras_negrito_lower.any (fun w => contains_substr nome_completo.toLower w) &&
          nome_completo != current_font)

end Diagramacao

namespace Diagramacao

/-! ## Claim theorems for flattening and font lookup -/

/-- Claim C9: flattening emits, per section in order, a title item exactly
when the trimmed title is non-empty, followed by a paragraph item for each
paragraph whose trimmed text is non-empty in order, with
item_index_in_section a 0-based counter over emitted paragraphs only. -/
theorem get_flattened_items_spec (secs : List Secao) :
    get_flattened_items secs = flattened_items_spec secs := by
  unfold get_flattened_items flattened_items_spec flatten_section
  congr 1
  apply List.map_congr_left
  intro p _
  rw [flatten_texts_eq_enumFrom, List.enum]

/-- Claim C10: the bold-variant lookup returns the input unchanged whenever
the input already contains one of the bold terms Bold, Black, Heavy,
Semibold; on every input it is a total function into Option String. -/
theorem find_bold_font_already_bold (fontes : List String) (f : String)
    (h : negrito_terms.any (fun term => contains_substr f term) = true) :
    find_bold_font fontes f = some f := by
  unfold find_bold_font
  simp only [h, if_true]

/-- Witness for C10 at a concrete already-bold font name. -/
theorem find_bold_font_already_bold_witness :
    negrito_terms.any (fun term => contains_substr "Arial Bold" term) = true ∧
      find_bold_font ["Arial", "Arial Bold"] "Arial Bold" = some "Arial Bold" :=
  ⟨by decide, find_bold_font_already_bold ["Arial", "Arial Bold"] "Arial Bold" (by decide)⟩

end Diagramacao

namespace Diagramacao

/-! ## Frame placement engine, two-column driver
(scribus-xml-dual-columns.py, main) -/

/-- The fixed page geometry constants read once per run (page height, top
and bottom margins, minimum placeable height). -/
structure LayoutConfig where
  altura_pagina : ℚ
  margem_superior : ℚ
  margem_inferior : ℚ
  min_placeable : ℚ
deriving DecidableEq

/-- The mutable layout cursor of the two-column driver: current page number
and the bottom edge recorded for each column on that page. -/
structure LayoutState where
  pagina_atual : Nat
  y_col1_bottom : ℚ
  y_col2_bottom : ℚ
deriving DecidableEq

/-- Column slot on a page. -/
inductive Col where
  | c1 : Col
  | c2 : Col
deriving DecidableEq

/-- Outcome of one placement decision: the layout state after any page
advance, the chosen column, the y coordinate the frame is created at, and
whether a new page was started. -/
structure Placement where
  state : LayoutState
  col : Col
  y : ℚ
  new_page : Bool
deriving DecidableEq

/-- The state and position produced by starting a new page (newPage, page
counter increment, both column bottoms reset to the top margin, column 1 at
the top margin). -/
def new_page_placement (cfg : LayoutConfig) (st : LayoutState) : Placement :=
  { state := { pagina_atual := st.pagina_atual + 1,
               y_col1_bottom := cfg.margem_superior,
               y_col2_bottom := cfg.margem_superior },
    col := Col.c1, y := cfg.margem_superior, new_page := true }

/-- First-frame placement decision of the two-column driver (lines
621-666): candidate y per column is that column bottom plus the space
before the item; the available space is measured down to the bottom margin;
column 1 is tried first, then column 2; otherwise a new page is started and
the frame goes to column 1 at the top margin, the space before ignored. -/
def place_first_frame (cfg : LayoutConfig) (st : LayoutState) (space_before : ℚ) :
    Placement :=
  let y_start_potential_col1 := st.y_col1_bottom + space_before
  let y_start_potential_col2 := st.y_col2_bottom + space_before
  let avail_col1 := cfg.altura_pagina - y_start_potential_col1 - cfg.margem_inferior
  let avail_col2 := cfg.altura_pagina - y_start_potential_col2 - cfg.margem_inferior
  if avail_col1 ≥ cfg.min_placeable then
    { state := st, col := Col.c1, y := y_start_potential_col1, new_page := false }
  else if avail_col2 ≥ cfg.min_placeable then
    { state := st, col := Col.c2, y := y_start_potential_col2, new_page := false }
  else
    new_page_placement cfg st

/-- Continuation-frame placement decision of the two-column driver (lines
805-857), given the column and bottom edge of the overflowing frame: stay
in the same column immediately below it when the space down to the bottom
margin suffices; otherwise from column 1 fall back to column 2 at the
current column-2 bottom, and from column 2 (or when column 2 also lacks
space) start a new page at column 1, top margin. -/
def chain_next_frame (cfg : LayoutConfig) (st : LayoutState)
    (last_frame_overflow_col : Col) (last_frame_bottom_y : ℚ) : Placement :=
  let space_below := cfg.altura_pagina - last_frame_bottom_y - cfg.margem_inferior
  if space_below ≥ cfg.min_placeable then
    { state := st, col := last_frame_overflow_col, y := last_frame_bottom_y,
      new_page := false }
  else
    match last_frame_overflow_col with
    | Col.c1 =>
      let next_y_link := st.y_col2_bottom
      let avail_next_col := cfg.altura_pagina - next_y_link - cfg.margem_inferior
      if avail_next_col ≥ cfg.min_placeable then
        { state := st, col := Col.c2, y := next_y_link, new_page := false }
      else
        new_page_placement cfg st
    | Col.c2 =>
      new_page_placement cfg st

/-- Continuation-frame placement of the single-column driver (lines
463-472): every overflow continuation starts a new page at the top margin. -/
def chain_next_single (cfg : LayoutConfig) (pagina_atual : Nat) : Nat × ℚ :=
  (pagina_atual + 1, cfg.margem_superior)

/-! ## Inter-item spacing -/

/-- space_before_this_item of the two-column driver (lines 592-612): zero
for the very first item overall, section gap plus item gap when the item
starts a new section, item gap otherwise. -/
def space_before_item_dual (espaco_vertical espaco_entre_secoes : ℚ)
    (item_index : Nat) (section_index last_section_index : Int) : ℚ :=
  let is_first_item_overall := item_index = 0
  let starts_new_section := ¬is_first_item_overall ∧ section_index ≠ last_section_index
  if starts_new_section then espaco_entre_secoes + espaco_vertical
  else if is_first_item_overall then 0
  else espaco_vertical

/-- espaco_antes_desta_secao_pt of the single-column driver (lines
346-349): the section gap alone, applied only from the second section on
and only when the cursor sits more than one point below the top margin. -/
def espaco_antes_secao_single (indice_secao : Nat) (y_cursor margem_superior
    espaco_entre_secoes : ℚ) : ℚ :=
  if 0 < indice_secao ∧ y_cursor > margem_superior + 1 then espaco_entre_secoes else 0

end Diagramacao

namespace Diagramacao

/-- Claim C1: the first frame of an item in two-column mode goes to the
first column, in the fixed order column 1 then column 2, whose available
space from the candidate y (column bottom plus the space before) down to
the bottom margin is at least the minimum placeable height; if neither
qualifies a new page is started, both column bottoms are reset to the top
margin, and the frame goes to column 1 at the top margin with the space
before ignored. -/
theorem place_first_frame_fill_order (cfg : LayoutConfig) (st : LayoutState)
    (space_before : ℚ) :
    (cfg.min_placeable ≤
        cfg.altura_pagina - (st.y_col1_bottom + space_before) - cfg.margem_inferior →
      place_first_frame cfg st space_before =
        { state := st, col := Col.c1, y := st.y_col1_bottom + space_before,
          new_page := false }) ∧
    (¬ cfg.min_placeable ≤
        cfg.altura_pagina - (st.y_col1_bottom + space_before) - cfg.margem_inferior →
      cfg.min_placeable ≤
        cfg.altura_pagina - (st.y_col2_bottom + space_before) - cfg.margem_inferior →
      place_first_frame cfg st space_before =
        { state := st, col := Col.c2, y := st.y_col2_bottom + space_before,
          new_page := false }) ∧
    (¬ cfg.min_placeable ≤
        cfg.altura_pagina - (st.y_col1_bottom + space_before) - cfg.margem_inferior →
      ¬ cfg.min_placeable ≤
        cfg.altura_pagina - (st.y_col2_bottom + space_before) - cfg.margem_inferior →
      place_first_frame cfg st space_before =
        { state := { pagina_atual := st.pagina_atual + 1,
                     y_col1_bottom := cfg.margem_superior,
                     y_col2_bottom := cfg.margem_superior },
          col := Col.c1, y := cfg.margem_superior, new_page := true }) := by
  refine ⟨?_, ?_, ?_⟩
  · intro h1
    simp [place_first_frame, ge_iff_le, h1]
  · intro h1 h2
    simp [place_first_frame, ge_iff_le, h1, h2]
  · intro h1 h2
    simp [place_first_frame, new_page_placement, ge_iff_le, h1, h2]

/-- Concrete scenario for C1: neither column qualifies, so a new page is
started with both bottoms reset and the frame at the top margin of
column 1. -/
def cfgW1 : LayoutConfig :=
  { altura_pagina := 100, margem_superior := 10, margem_inferior := 10,
    min_placeable := 20 }

/-- Concrete layout state for the C1 witness. -/
def stW1 : LayoutState :=
  { pagina_atual := 1, y_col1_bottom := 90, y_col2_bottom := 90 }

/-- Witness for C1 at a concrete full page. -/
theorem place_first_frame_fill_order_witness :
    (¬ cfgW1.min_placeable ≤
        cfgW1.altura_pagina - (stW1.y_col1_bottom + 0) - cfgW1.margem_inferior) ∧
    (¬ cfgW1.min_placeable ≤
        cfgW1.altura_pagina - (stW1.y_col2_bottom + 0) - cfgW1.margem_inferior) ∧
    place_first_frame cfgW1 stW1 0 =
      { state := { pagina_atual := 2, y_col1_bottom := 10, y_col2_bottom := 10 },
        col := Col.c1, y := 10, new_page := true } := by
  have h1 : ¬ cfgW1.min_placeable ≤
      cfgW1.altura_pagina - (stW1.y_col1_bottom + 0) - cfgW1.margem_inferior := by
    norm_num [cfgW1, stW1]
  have h2 : ¬ cfgW1.min_placeable ≤
      cfgW1.altura_pagina - (stW1.y_col2_bottom + 0) - cfgW1.margem_inferior := by
    norm_num [cfgW1, stW1]
  refine ⟨h1, h2, ?_⟩
  rw [(place_first_frame_fill_order cfgW1 stW1 0).2.2 h1 h2]
  simp [cfgW1, stW1]

/-- Claim C2: a continuation frame stays in the same column immediately
below the overflowing frame when the space down to the bottom margin is at
least the minimum placeable height; otherwise from column 1 it falls back
to column 2 at the current column-2 bottom, and when that also lacks space,
or the overflowing frame is in column 2, a new page is started with the
frame in column 1 at the top margin; in single-column mode every overflow
continuation goes to a new page at the top margin. -/
theorem chain_next_frame_fill_order (cfg : LayoutConfig) (st : LayoutState)
    (col : Col) (bottom : ℚ) :
    (cfg.min_placeable ≤ cfg.altura_pagina - bottom - cfg.margem_inferior →
      chain_next_frame cfg st col bottom =
        { state := st, col := col, y := bottom, new_page := false }) ∧
    (¬ cfg.min_placeable ≤ cfg.altura_pagina - bottom - cfg.margem_inferior →
      cfg.min_placeable ≤ cfg.altura_pagina - st.y_col2_bottom - cfg.margem_inferior →
      chain_next_frame cfg st Col.c1 bottom =
        { state := st, col := Col.c2, y := st.y_col2_bottom, new_page := false }) ∧
    (¬ cfg.min_placeable ≤ cfg.altura_pagina - bottom - cfg.margem_inferior →
      ¬ cfg.min_placeable ≤ cfg.altura_pagina - st.y_col2_bottom - cfg.margem_inferior →
      chain_next_frame cfg st Col.c1 bottom =
        { state := { pagina_atual := st.pagina_atual + 1,
                     y_col1_bottom := cfg.margem_superior,
                     y_col2_bottom := cfg.margem_superior },
          col := Col.c1, y := cfg.margem_superior, new_page := true }) ∧
    (¬ cfg.min_placeable ≤ cfg.altura_pagina - bottom - cfg.margem_inferior →
      chain_next_frame cfg st Col.c2 bottom =
        { state := { pagina_atual := st.pagina_atual + 1,
                     y_col1_bottom := cfg.margem_superior,
                     y_col2_bottom := cfg.margem_superior },
          col := Col.c1, y := cfg.margem_superior, new_page := true }) ∧
    (∀ p : Nat, chain_next_single cfg p = (p + 1, cfg.margem_superior)) := by
  refine ⟨?_, ?_, ?_, ?_, ?_⟩
  · intro h1
    simp [chain_next_frame, ge_iff_le, h1]
  · intro h1 h2
    simp [chain_next_frame, ge_iff_le, h1, h2]
  · intro h1 h2
    simp [chain_next_frame, new_page_placement, ge_iff_le, h1, h2]
  · intro h1
    simp [chain_next_frame, new_page_placement, ge_iff_le, h1]
  · intro p
    rfl

/-- Concrete page geometry for the C2 witness. -/
def cfgW2 : LayoutConfig :=
  { altura_pagina := 100, margem_superior := 10, margem_inferior := 10,
    min_placeable := 20 }

/-- Concrete layout state for the C2 witness: column 2 is only partly
filled. -/
def stW2 : LayoutState :=
  { pagina_atual := 1, y_col1_bottom := 95, y_col2_bottom := 30 }

/-- Witness for C2: the overflowing frame sits at the bottom of column 1
and column 2 still has room, so the chain continues in column 2. -/
theorem chain_next_frame_fill_order_witness :
    (¬ cfgW2.min_placeable ≤
        cfgW2.altura_pagina - 95 - cfgW2.margem_inferior) ∧
    (cfgW2.min_placeable ≤
        cfgW2.altura_pagina - stW2.y_col2_bottom - cfgW2.margem_inferior) ∧
    chain_next_frame cfgW2 stW2 Col.c1 95 =
      { state := stW2, col := Col.c2, y := 30, new_page := false } := by
  have h1 : ¬ cfgW2.min_placeable ≤
      cfgW2.altura_pagina - 95 - cfgW2.margem_inferior := by
    norm_num [cfgW2]
  have h2 : cfgW2.min_placeable ≤
      cfgW2.altura_pagina - stW2.y_col2_bottom - cfgW2.margem_inferior := by
    norm_num [cfgW2, stW2]
  refine ⟨h1, h2, ?_⟩
  rw [(chain_next_frame_fill_order cfgW2 stW2 Col.c1 95).2.1 h1 h2]
  simp [stW2]

end Diagramacao

namespace Diagramacao

/-- Single-column driver item gap: 5 mm (line 321). -/
def espaco_vertical_single_pt : ℚ := mm_to_pt 5

/-- Single-column driver section gap: 10 mm (line 323). -/
def espaco_entre_secoes_single_pt : ℚ := mm_to_pt 10

/-- Single-column driver page margin: 14.111 mm (line 256). -/
def margem_single_pt : ℚ := mm_to_pt 14.111

/-- Counterexample to C3: in the single-column driver the space added
before the title of the second section, with the cursor well below the top
margin, is the section gap alone, not section gap plus item gap as the
claim states. -/
theorem espaco_antes_secao_single_cex :
    espaco_antes_secao_single 1 500 margem_single_pt espaco_entre_secoes_single_pt ≠
      espaco_entre_secoes_single_pt + espaco_vertical_single_pt := by
  have hcond : (0 : Nat) < 1 ∧ (500 : ℚ) > margem_single_pt + 1 := by
    constructor
    · norm_num
    · norm_num [margem_single_pt, mm_to_pt]
  rw [espaco_antes_secao_single, if_pos hcond]
  norm_num [espaco_entre_secoes_single_pt, espaco_vertical_single_pt, mm_to_pt]

/-- Claim C3 (amended): in the two-column driver the space before an item
is 0 for the very first item, section gap plus item gap when the section
index differs from the previous item, and item gap otherwise; in the
single-column driver the space inserted before a section title is the
section gap alone, applied only from the second section on and only when
the cursor is more than one point below the top margin, and is 0
otherwise. -/
theorem space_before_rules (ev es ms : ℚ) :
    (∀ si lsi : Int, space_before_item_dual ev es 0 si lsi = 0) ∧
    (∀ (i : Nat) (si lsi : Int), i ≠ 0 → si ≠ lsi →
      space_before_item_dual ev es i si lsi = es + ev) ∧
    (∀ (i : Nat) (si lsi : Int), i ≠ 0 → si = lsi →
      space_before_item_dual ev es i si lsi = ev) ∧
    (∀ (idx : Nat) (y : ℚ), 0 < idx → ms + 1 < y →
      espaco_antes_secao_single idx y ms es = es) ∧
    (∀ (idx : Nat) (y : ℚ), ¬(0 < idx ∧ ms + 1 < y) →
      espaco_antes_secao_single idx y ms es = 0) := by
  refine ⟨?_, ?_, ?_, ?_, ?_⟩
  · intro si lsi
    simp [space_before_item_dual]
  · intro i si lsi hi hs
    simp [space_before_item_dual, hi, hs]
  · intro i si lsi hi hs
    simp [space_before_item_dual, hi, hs]
  · intro idx y hidx hy
    simp [espaco_antes_secao_single, gt_iff_lt, hidx, hy]
  · intro idx y h
    simp only [espaco_antes_secao_single, gt_iff_lt]
    rw [if_neg h]

/-- Witness for C3 (amended) at concrete inputs: a second item continuing
the same section gets the item gap in the two-column driver, and a second
section with the cursor below the top margin gets the bare section gap in
the single-column driver. -/
theorem space_before_rules_witness :
    (1 : Nat) ≠ 0 ∧ (3 : Int) = 3 ∧
    space_before_item_dual 2 7 1 3 3 = 2 ∧
    (0 : Nat) < 1 ∧ (10 : ℚ) + 1 < 500 ∧
    espaco_antes_secao_single 1 500 10 7 = 7 := by
  refine ⟨by norm_num, rfl, ?_, by norm_num, by norm_num, ?_⟩
  · exact (space_before_rules 2 7 10).2.2.1 1 3 3 (by norm_num) rfl
  · exact (space_before_rules 2 7 10).2.2.2.1 1 500 (by norm_num) (by norm_num)

end Diagramacao

namespace Diagramacao

/-! ## Height reclamation (get_required_height lines 131-195 and
adjust_frame_height lines 197-266 of scribus-xml-dual-columns.py).

A frame, together with the oracle answers about it, is a FrameState: its
position and size as returned by getPosition/getSize, the overflow flag
from textOverflows, the line count from getTextLines, the top and bottom
text distances from getTextDistances, and the text from getText. -/

/-- A text frame together with the measurement-oracle facts about it. -/
structure FrameState where
  pos_x : ℚ
  pos_y : ℚ
  width : ℚ
  height : ℚ
  overflows : Bool
  num_linhas : Int
  dist_sup : ℚ
  dist_inf : ℚ
  text : String
deriving DecidableEq

/-- The defensively clamped line count (negative counts become 0),
lines 149-151. -/
def num_linhas_eff (f : FrameState) : Int :=
  if f.num_linhas < 0 then 0 else f.num_linhas

/-- has_content_that_needs_space, line 160: the frame text is non-blank
after trimming, i.e. it has at least one non-whitespace character. -/
def has_content (f : FrameState) : Bool :=
  f.text.data.any (fun c => !c.isWhitespace)

/-- The base required height, lines 162-171: lines times spacing plus the
two text distances when lines are reported; one line worth when no lines
but non-blank content; the distances alone otherwise. -/
def altura_base (f : FrameState) (line_spacing : ℚ) : ℚ :=
  if 0 < num_linhas_eff f then
    (num_linhas_eff f : ℚ) * line_spacing + f.dist_sup + f.dist_inf
  else if has_content f then
    line_spacing + f.dist_sup + f.dist_inf
  else
    f.dist_sup + f.dist_inf

/-- MIN_EFFECTIVE_CONTENT_HEIGHT, line 175. -/
def min_effective_content_height (line_spacing : ℚ) : ℚ :=
  if 0 < line_spacing then line_spacing / 2 else 1

/-- The two content floors of lines 176-181 applied to the base height. -/
def altura_com_pisos (f : FrameState) (line_spacing : ℚ) : ℚ :=
  if altura_base f line_spacing < min_effective_content_height line_spacing ∧
      has_content f = true then
    min_effective_content_height line_spacing
  else if altura_base f line_spacing ≤ 0 ∧ has_content f = true then
    min_effective_content_height line_spacing
  else
    altura_base f line_spacing

/-- get_required_height, lines 131-195: -1 on an overflowing frame, else
the floored base height with an absolute floor of 1 point (lines 184-185). -/
def get_required_height (f : FrameState) (line_spacing : ℚ) : ℚ :=
  if f.overflows then -1
  else if altura_com_pisos f line_spacing ≤ 0 then 1
  else altura_com_pisos f line_spacing

/-- The clamp of lines 233-236: the required height is not allowed to
exceed the frame's current height. -/
def required_clamped (f : FrameState) (line_spacing : ℚ) : ℚ :=
  if get_required_height f line_spacing > f.height then f.height
  else get_required_height f line_spacing

/-- Result of adjust_frame_height: the returned bottom edge and the frame
height after the call. -/
structure AdjustOutcome where
  bottom_y : ℚ
  final_height : ℚ
deriving DecidableEq

/-- adjust_frame_height, lines 197-266: keep everything on an overflowing
frame or a failed height computation; resize down to the clamped required
height only when it is positive and smaller than the current height by
more than min_resize_diff = 0.1; on a successful resize the bottom edge is
re-queried (post_resize_pos_y models the re-queried y position); a failed
resize keeps the prior bottom edge. -/
def adjust_frame_height (f : FrameState) (line_spacing : ℚ)
    (resize_ok : Bool) (post_resize_pos_y : ℚ) : AdjustOutcome :=
  if f.overflows then
    { bottom_y := f.pos_y + f.height, final_height := f.height }
  else if get_required_height f line_spacing < 0 then
    { bottom_y := f.pos_y + f.height, final_height := f.height }
  else if 0 < required_clamped f line_spacing ∧
      required_clamped f line_spacing < f.height - 0.1 then
    if resize_ok then
      { bottom_y := post_resize_pos_y + required_clamped f line_spacing,
        final_height := required_clamped f line_spacing }
    else
      { bottom_y := f.pos_y + f.height, final_height := f.height }
  else
    { bottom_y := f.pos_y + f.height, final_height := f.height }

lemma num_linhas_eff_of_pos (f : FrameState) (hn : 0 < f.num_linhas) :
    num_linhas_eff f = f.num_linhas := by
  unfold num_linhas_eff
  rw [if_neg (by omega)]

lemma num_linhas_eff_nonpos (f : FrameState) (hn : f.num_linhas ≤ 0) :
    ¬ 0 < num_linhas_eff f := by
  unfold num_linhas_eff
  split_ifs <;> omega

lemma grh_pos (f : FrameState) (ls : ℚ) (hov : f.overflows = false) :
    0 < get_required_height f ls := by
  unfold get_required_height
  rw [if_neg (by simp [hov])]
  split_ifs with h
  · norm_num
  · linarith [not_le.mp h]

lemma grh_of_pos_lines (f : FrameState) (ls : ℚ) (hov : f.overflows = false)
    (hls : 0 < ls) (hds : 0 ≤ f.dist_sup) (hdi : 0 ≤ f.dist_inf)
    (hn : 0 < f.num_linhas) :
    get_required_height f ls = (f.num_linhas : ℚ) * ls + f.dist_sup + f.dist_inf := by
  have hbase : altura_base f ls = (f.num_linhas : ℚ) * ls + f.dist_sup + f.dist_inf := by
    unfold altura_base
    rw [num_linhas_eff_of_pos f hn, if_pos hn]
  have hone : ls ≤ (f.num_linhas : ℚ) * ls := by
    have h1 : (1 : ℚ) ≤ (f.num_linhas : ℚ) := by exact_mod_cast hn
    nlinarith
  have hminEff : min_effective_content_height ls = ls / 2 := by
    unfold min_effective_content_height
    rw [if_pos hls]
  have hgt : min_effective_content_height ls < altura_base f ls := by
    rw [hminEff, hbase]; linarith
  have hpos : 0 < altura_base f ls := by rw [hbase]; linarith
  have hpisos : altura_com_pisos f ls = altura_base f ls := by
    unfold altura_com_pisos
    rw [if_neg (by rintro ⟨h1, -⟩; linarith), if_neg (by rintro ⟨h1, -⟩; linarith)]
  unfold get_required_height
  rw [if_neg (by simp [hov]), hpisos, if_neg (by linarith), hbase]

lemma grh_of_no_lines_content (f : FrameState) (ls : ℚ) (hov : f.overflows = false)
    (hls : 0 < ls) (hds : 0 ≤ f.dist_sup) (hdi : 0 ≤ f.dist_inf)
    (hn : f.num_linhas ≤ 0) (hc : has_content f = true) :
    get_required_height f ls = ls + f.dist_sup + f.dist_inf := by
  have hbase : altura_base f ls = ls + f.dist_sup + f.dist_inf := by
    unfold altura_base
    rw [if_neg (num_linhas_eff_nonpos f hn), if_pos hc]
  have hminEff : min_effective_content_height ls = ls / 2 := by
    unfold min_effective_content_height
    rw [if_pos hls]
  have hgt : min_effective_content_height ls < altura_base f ls := by
    rw [hminEff, hbase]; linarith
  have hpos : 0 < altura_base f ls := by rw [hbase]; linarith
  have hpisos : altura_com_pisos f ls = altura_base f ls := by
    unfold altura_com_pisos
    rw [if_neg (by rintro ⟨h1, -⟩; linarith), if_neg (by rintro ⟨h1, -⟩; linarith)]
  unfold get_required_height
  rw [if_neg (by simp [hov]), hpisos, if_neg (by linarith), hbase]

lemma grh_of_blank (f : FrameState) (ls : ℚ) (hov : f.overflows = false)
    (hn : f.num_linhas ≤ 0) (hc : has_content f = false) :
    get_required_height f ls =
      if f.dist_sup + f.dist_inf ≤ 0 then 1 else f.dist_sup + f.dist_inf := by
  have hbase : altura_base f ls = f.dist_sup + f.dist_inf := by
    unfold altura_base
    rw [if_neg (num_linhas_eff_nonpos f hn), if_neg (by simp [hc])]
  have hpisos : altura_com_pisos f ls = altura_base f ls := by
    unfold altura_com_pisos
    rw [if_neg (by rintro ⟨-, h2⟩; simp [hc] at h2),
        if_neg (by rintro ⟨-, h2⟩; simp [hc] at h2)]
  unfold get_required_height
  rw [if_neg (by simp [hov]), hpisos, hbase]

lemma adjust_frame_height_eq (f : FrameState) (ls : ℚ) (ok : Bool) (py : ℚ)
    (hov : f.overflows = false) :
    adjust_frame_height f ls ok py =
      if get_required_height f ls < f.height - 0.1 then
        (if ok then
          { bottom_y := py + get_required_height f ls,
            final_height := get_required_height f ls }
         else
          ({ bottom_y := f.pos_y + f.height, final_height := f.height } : AdjustOutcome))
      else
        { bottom_y := f.pos_y + f.height, final_height := f.height } := by
  have hg : 0 < get_required_height f ls := grh_pos f ls hov
  unfold adjust_frame_height
  rw [if_neg (by simp [hov]), if_neg (by linarith)]
  by_cases hgt : get_required_height f ls > f.height
  · have hc : required_clamped f ls = f.height := by
      unfold required_clamped; rw [if_pos hgt]
    rw [hc, if_neg (by rintro ⟨-, h2⟩; linarith),
        if_neg (by intro h; linarith)]
  · have hc : required_clamped f ls = get_required_height f ls := by
      unfold required_clamped; rw [if_neg hgt]
    rw [hc]
    by_cases hlt : get_required_height f ls < f.height - 0.1
    · rw [if_pos ⟨hg, hlt⟩, if_pos hlt]
    · rw [if_neg (by rintro ⟨-, h⟩; exact hlt h), if_neg hlt]

end Diagramacao

namespace Diagramacao

/-! ### The single-column driver's reclamation of the final frame
(scribus-xml-single-column.py lines 520-551) -/

/-- Lines 532-535 of the single-column driver: altura_necessaria_final is
the line-count formula, with one line worth substituted when the result is
not positive and the text is non-blank. -/
def altura_apos_substituicao (f : FrameState) (ls : ℚ) : ℚ :=
  if (f.num_linhas : ℚ) * ls + f.dist_sup + f.dist_inf ≤ 0 ∧ has_content f = true then
    ls + f.dist_sup + f.dist_inf
  else
    (f.num_linhas : ℚ) * ls + f.dist_sup + f.dist_inf

/-- Line 537 of the single-column driver: an absolute floor of 1 point. -/
def altura_necessaria_final_single (f : FrameState) (ls : ℚ) : ℚ :=
  if altura_apos_substituicao f ls ≤ 0 then 1 else altura_apos_substituicao f ls

/-- The final-frame reclamation of the single-column driver (lines
520-551): keep everything on an overflowing frame or a negative line
count; resize whenever the computed height is positive and smaller than
the current height (no clamp, no threshold); on success the returned
bottom edge uses the position queried before the resize (line 545); a
failed resize keeps the prior bottom edge. -/
def adjust_final_frame_single (f : FrameState) (ls : ℚ) (resize_ok : Bool) :
    AdjustOutcome :=
  if f.overflows then
    { bottom_y := f.pos_y + f.height, final_height := f.height }
  else if f.num_linhas < 0 then
    { bottom_y := f.pos_y + f.height, final_height := f.height }
  else if 0 < altura_necessaria_final_single f ls ∧
      altura_necessaria_final_single f ls < f.height then
    if resize_ok then
      { bottom_y := f.pos_y + altura_necessaria_final_single f ls,
        final_height := altura_necessaria_final_single f ls }
    else
      { bottom_y := f.pos_y + f.height, final_height := f.height }
  else
    { bottom_y := f.pos_y + f.height, final_height := f.height }

lemma altura_final_single_of_base_pos (f : FrameState) (ls : ℚ)
    (h : 0 < (f.num_linhas : ℚ) * ls + f.dist_sup + f.dist_inf) :
    altura_necessaria_final_single f ls =
      (f.num_linhas : ℚ) * ls + f.dist_sup + f.dist_inf := by
  have hsub : altura_apos_substituicao f ls =
      (f.num_linhas : ℚ) * ls + f.dist_sup + f.dist_inf := by
    unfold altura_apos_substituicao
    rw [if_neg (by rintro ⟨h1, -⟩; linarith)]
  unfold altura_necessaria_final_single
  rw [hsub, if_neg (by linarith)]

lemma altura_final_single_of_pos_lines (f : FrameState) (ls : ℚ) (hls : 0 < ls)
    (hds : 0 ≤ f.dist_sup) (hdi : 0 ≤ f.dist_inf) (hn : 0 < f.num_linhas) :
    altura_necessaria_final_single f ls =
      (f.num_linhas : ℚ) * ls + f.dist_sup + f.dist_inf := by
  apply altura_final_single_of_base_pos
  have h1 : (1 : ℚ) ≤ (f.num_linhas : ℚ) := by exact_mod_cast hn
  nlinarith

lemma altura_final_single_of_subst (f : FrameState) (ls : ℚ)
    (h : (f.num_linhas : ℚ) * ls + f.dist_sup + f.dist_inf ≤ 0)
    (hc : has_content f = true) :
    altura_necessaria_final_single f ls =
      if ls + f.dist_sup + f.dist_inf ≤ 0 then 1
      else ls + f.dist_sup + f.dist_inf := by
  have hsub : altura_apos_substituicao f ls = ls + f.dist_sup + f.dist_inf := by
    unfold altura_apos_substituicao
    rw [if_pos ⟨h, hc⟩]
  unfold altura_necessaria_final_single
  rw [hsub]

lemma altura_final_single_of_blank_nonpos (f : FrameState) (ls : ℚ)
    (h : (f.num_linhas : ℚ) * ls + f.dist_sup + f.dist_inf ≤ 0)
    (hc : has_content f = false) :
    altura_necessaria_final_single f ls = 1 := by
  have hsub : altura_apos_substituicao f ls =
      (f.num_linhas : ℚ) * ls + f.dist_sup + f.dist_inf := by
    unfold altura_apos_substituicao
    rw [if_neg (by rintro ⟨-, h2⟩; rw [hc] at h2; exact Bool.noConfusion h2)]
  unfold altura_necessaria_final_single
  rw [hsub, if_pos h]

lemma adjust_final_frame_single_cases (f : FrameState) (ls : ℚ) (ok : Bool) :
    adjust_final_frame_single f ls ok =
      ({ bottom_y := f.pos_y + f.height, final_height := f.height } : AdjustOutcome) ∨
    (ok = true ∧ 0 < altura_necessaria_final_single f ls ∧
      altura_necessaria_final_single f ls < f.height ∧
      adjust_final_frame_single f ls ok =
        { bottom_y := f.pos_y + altura_necessaria_final_single f ls,
          final_height := altura_necessaria_final_single f ls }) := by
  unfold adjust_final_frame_single
  split_ifs with h1 h2 h3 h4
  · exact Or.inl rfl
  · exact Or.inl rfl
  · exact Or.inr ⟨h4, h3.1, h3.2, rfl⟩
  · exact Or.inl rfl
  · exact Or.inl rfl

lemma adjust_final_frame_single_props (f : FrameState) (ls : ℚ) (ok : Bool)
    (hls : 0 < ls) (hds : 0 ≤ f.dist_sup) (hdi : 0 ≤ f.dist_inf) :
    ((adjust_final_frame_single f ls ok).final_height ≤ f.height) ∧
    ((adjust_final_frame_single f ls ok).final_height ≠ f.height →
      0 < altura_necessaria_final_single f ls ∧
      altura_necessaria_final_single f ls < f.height ∧
      (adjust_final_frame_single f ls ok).final_height =
        altura_necessaria_final_single f ls) ∧
    ((adjust_final_frame_single f ls ok).final_height ≠ f.height → 0 < f.num_linhas →
      (f.num_linhas : ℚ) * ls + f.dist_sup + f.dist_inf ≤
        (adjust_final_frame_single f ls ok).final_height) ∧
    (ok = false →
      (adjust_final_frame_single f ls ok).bottom_y = f.pos_y + f.height) := by
  rcases adjust_final_frame_single_cases f ls ok with h | ⟨hok, hpos, hlt, h⟩
  · rw [h]
    exact ⟨le_refl _, fun hne => absurd rfl hne, fun hne => absurd rfl hne,
      fun _ => rfl⟩
  · rw [h]
    refine ⟨le_of_lt hlt, fun _ => ⟨hpos, hlt, rfl⟩, ?_, ?_⟩
    · intro _ hn
      exact le_of_eq (altura_final_single_of_pos_lines f ls hls hds hdi hn).symm
    · intro hf
      rw [hok] at hf
      exact Bool.noConfusion hf

lemma adjust_frame_height_dual_props (f : FrameState) (ls : ℚ) (ok : Bool) (py : ℚ)
    (hov : f.overflows = false) (hls : 0 < ls)
    (hds : 0 ≤ f.dist_sup) (hdi : 0 ≤ f.dist_inf) :
    ((adjust_frame_height f ls ok py).final_height ≤ f.height) ∧
    ((adjust_frame_height f ls ok py).final_height ≠ f.height →
      get_required_height f ls < f.height - 0.1 ∧
      (adjust_frame_height f ls ok py).final_height = get_required_height f ls) ∧
    ((adjust_frame_height f ls ok py).final_height ≠ f.height → 0 < f.num_linhas →
      (f.num_linhas : ℚ) * ls + f.dist_sup + f.dist_inf ≤
        (adjust_frame_height f ls ok py).final_height) ∧
    (ok = false →
      (adjust_frame_height f ls ok py).bottom_y = f.pos_y + f.height) := by
  rw [adjust_frame_height_eq f ls ok py hov]
  by_cases hlt : get_required_height f ls < f.height - 0.1
  · rw [if_pos hlt]
    cases ok with
    | true =>
      refine ⟨?_, fun _ => ⟨hlt, by simp⟩, ?_, ?_⟩
      · simp only [if_true]
        linarith
      · intro _ hn
        rw [grh_of_pos_lines f ls hov hls hds hdi hn]
        simp
      · intro h
        exact absurd h (by simp)
    | false =>
      refine ⟨le_refl _, fun h => absurd rfl h, fun h => absurd rfl h, fun _ => rfl⟩
  · rw [if_neg hlt]
    exact ⟨le_refl _, fun h => absurd rfl h, fun h => absurd rfl h, fun _ => rfl⟩

/-- Concrete frame for the C4 counterexample: the line count requires
30 pt while the frame holds 30.05 pt, a shortfall below the 0.1 pt
threshold. -/
def frame_cex4 : FrameState :=
  { pos_x := 0, pos_y := 10, width := 200, height := 30.05, overflows := false,
    num_linhas := 2, dist_sup := 1, dist_inf := 1, text := "ab" }

/-- Counterexample to C4: the single-column reclamation (lines 539-551)
resizes this non-overflowing frame although its required height falls
short of the current height by only 0.05 pt, less than the 0.1 pt
threshold below which the claim says no resize happens. -/
theorem adjust_final_frame_single_threshold_cex :
    (adjust_final_frame_single frame_cex4 14 true).final_height ≠
      frame_cex4.height ∧
    ¬ altura_necessaria_final_single frame_cex4 14 < frame_cex4.height - 0.1 := by
  have hbase : (frame_cex4.num_linhas : ℚ) * 14 + frame_cex4.dist_sup +
      frame_cex4.dist_inf = 30 := by
    norm_num [frame_cex4]
  have ha : altura_necessaria_final_single frame_cex4 14 = 30 := by
    rw [altura_final_single_of_base_pos frame_cex4 14 (by rw [hbase]; norm_num)]
    exact hbase
  have hadj : adjust_final_frame_single frame_cex4 14 true =
      { bottom_y := frame_cex4.pos_y + 30, final_height := 30 } := by
    unfold adjust_final_frame_single
    rw [if_neg (by simp [frame_cex4]), if_neg (by norm_num [frame_cex4]),
      if_pos ⟨by rw [ha]; norm_num, by rw [ha]; norm_num [frame_cex4]⟩,
      if_pos rfl, ha]
  constructor
  · rw [hadj]
    norm_num [frame_cex4]
  · rw [ha]
    norm_num [frame_cex4]

/-- Claim C4 (amended): reclamation in both drivers never increases the
frame height beyond its height at creation, never shrinks it below what a
positive line count requires, and keeps the prior bottom edge when the
resize fails.  The two-column driver additionally clamps the required
height to the current height and resizes only when it is smaller than the
current height by more than the 0.1 pt threshold; the single-column driver
resizes whenever the required height is positive and smaller than the
current height, with no clamp and no threshold. -/
theorem adjust_frame_height_no_grow (f : FrameState) (ls : ℚ) (ok : Bool) (py : ℚ)
    (hov : f.overflows = false) (hls : 0 < ls)
    (hds : 0 ≤ f.dist_sup) (hdi : 0 ≤ f.dist_inf) :
    ((adjust_frame_height f ls ok py).final_height ≤ f.height) ∧
    ((adjust_frame_height f ls ok py).final_height ≠ f.height →
      get_required_height f ls < f.height - 0.1 ∧
      (adjust_frame_height f ls ok py).final_height = get_required_height f ls) ∧
    ((adjust_frame_height f ls ok py).final_height ≠ f.height → 0 < f.num_linhas →
      (f.num_linhas : ℚ) * ls + f.dist_sup + f.dist_inf ≤
        (adjust_frame_height f ls ok py).final_height) ∧
    (ok = false →
      (adjust_frame_height f ls ok py).bottom_y = f.pos_y + f.height) ∧
    ((adjust_final_frame_single f ls ok).final_height ≤ f.height) ∧
    ((adjust_final_frame_single f ls ok).final_height ≠ f.height →
      0 < altura_necessaria_final_single f ls ∧
      altura_necessaria_final_single f ls < f.height ∧
      (adjust_final_frame_single f ls ok).final_height =
        altura_necessaria_final_single f ls) ∧
    ((adjust_final_frame_single f ls ok).final_height ≠ f.height → 0 < f.num_linhas →
      (f.num_linhas : ℚ) * ls + f.dist_sup + f.dist_inf ≤
        (adjust_final_frame_single f ls ok).final_height) ∧
    (ok = false →
      (adjust_final_frame_single f ls ok).bottom_y = f.pos_y + f.height) := by
  obtain ⟨d1, d2, d3, d4⟩ := adjust_frame_height_dual_props f ls ok py hov hls hds hdi
  obtain ⟨s1, s2, s3, s4⟩ := adjust_final_frame_single_props f ls ok hls hds hdi
  exact ⟨d1, d2, d3, d4, s1, s2, s3, s4⟩

/-- Concrete non-overflowing frame for the C4 witness: 2 lines of text in
an oversized frame. -/
def frame_w4 : FrameState :=
  { pos_x := 0, pos_y := 10, width := 200, height := 100, overflows := false,
    num_linhas := 2, dist_sup := 1, dist_inf := 1, text := "ab" }

/-- Witness for C4 (amended): in both drivers a failing resize keeps the
prior bottom edge and the height is never grown. -/
theorem adjust_frame_height_no_grow_witness :
    frame_w4.overflows = false ∧ (0 : ℚ) < 14 ∧
    (0 : ℚ) ≤ frame_w4.dist_sup ∧ (0 : ℚ) ≤ frame_w4.dist_inf ∧
    (adjust_frame_height frame_w4 14 false 0).final_height ≤ frame_w4.height ∧
    (adjust_frame_height frame_w4 14 false 0).bottom_y =
      frame_w4.pos_y + frame_w4.height ∧
    (adjust_final_frame_single frame_w4 14 false).final_height ≤ frame_w4.height ∧
    (adjust_final_frame_single frame_w4 14 false).bottom_y =
      frame_w4.pos_y + frame_w4.height := by
  have h := adjust_frame_height_no_grow frame_w4 14 false 0 rfl (by norm_num)
    (by norm_num [frame_w4]) (by norm_num [frame_w4])
  exact ⟨rfl, by norm_num, by norm_num [frame_w4], by norm_num [frame_w4],
    h.1, h.2.2.2.1 rfl, h.2.2.2.2.1, h.2.2.2.2.2.2.2 rfl⟩

/-- Concrete blank frame with zero text distances for the C5
counterexample. -/
def frame_blank : FrameState :=
  { pos_x := 0, pos_y := 0, width := 100, height := 50, overflows := false,
    num_linhas := 0, dist_sup := 0, dist_inf := 0, text := "" }

/-- Counterexample to C5: for a non-overflowing frame with effectively
blank text and zero text distances, the computed required height is the
absolute floor 1.0, not the sum of the top and bottom distances (0). -/
theorem get_required_height_blank_cex :
    get_required_height frame_blank (84 / 5) ≠
      frame_blank.dist_sup + frame_blank.dist_inf := by
  have h1 : get_required_height frame_blank (84 / 5) = 1 := by
    rw [grh_of_blank frame_blank (84 / 5) rfl (by norm_num [frame_blank]) (by decide)]
    norm_num [frame_blank]
  rw [h1]
  norm_num [frame_blank]

/-- Claim C5 (amended): in the two-column driver get_required_height gives
lines times the fixed line spacing plus the top and bottom distances for a
positive line count, one line worth plus the distances for a zero count
with non-blank text, and for blank text the distances alone with an
absolute floor of 1 point when their sum is not positive.  In the
single-column driver the final-frame computation gives lines times spacing
plus the distances whenever that value is positive — in particular the
distances alone for a zero count with positive distances, even when the
text is non-blank — substitutes one line worth plus the distances only
when the value is not positive and the text is non-blank, and falls back
to the absolute floor of 1 point for non-positive blank-text values. -/
theorem get_required_height_spec (f : FrameState) (ls : ℚ)
    (hov : f.overflows = false) (hls : 0 < ls)
    (hds : 0 ≤ f.dist_sup) (hdi : 0 ≤ f.dist_inf) :
    (0 < f.num_linhas →
      get_required_height f ls = (f.num_linhas : ℚ) * ls + f.dist_sup + f.dist_inf) ∧
    (f.num_linhas = 0 → has_content f = true →
      get_required_height f ls = ls + f.dist_sup + f.dist_inf) ∧
    (f.num_linhas = 0 → has_content f = false →
      get_required_height f ls =
        if f.dist_sup + f.dist_inf ≤ 0 then 1 else f.dist_sup + f.dist_inf) ∧
    (0 < (f.num_linhas : ℚ) * ls + f.dist_sup + f.dist_inf →
      altura_necessaria_final_single f ls =
        (f.num_linhas : ℚ) * ls + f.dist_sup + f.dist_inf) ∧
    (f.num_linhas = 0 → 0 < f.dist_sup + f.dist_inf →
      altura_necessaria_final_single f ls = f.dist_sup + f.dist_inf) ∧
    ((f.num_linhas : ℚ) * ls + f.dist_sup + f.dist_inf ≤ 0 → has_content f = true →
      altura_necessaria_final_single f ls =
        if ls + f.dist_sup + f.dist_inf ≤ 0 then 1
        else ls + f.dist_sup + f.dist_inf) ∧
    ((f.num_linhas : ℚ) * ls + f.dist_sup + f.dist_inf ≤ 0 → has_content f = false →
      altura_necessaria_final_single f ls = 1) := by
  refine ⟨?_, ?_, ?_, ?_, ?_, ?_, ?_⟩
  · intro hn
    exact grh_of_pos_lines f ls hov hls hds hdi hn
  · intro hn hc
    exact grh_of_no_lines_content f ls hov hls hds hdi (le_of_eq hn) hc
  · intro hn hc
    exact grh_of_blank f ls hov (le_of_eq hn) hc
  · intro h
    exact altura_final_single_of_base_pos f ls h
  · intro hn hd
    have hb : (f.num_linhas : ℚ) * ls + f.dist_sup + f.dist_inf =
        f.dist_sup + f.dist_inf := by
      rw [hn]
      push_cast
      ring
    rw [altura_final_single_of_base_pos f ls (by rw [hb]; exact hd)]
    exact hb
  · intro h hc
    exact altura_final_single_of_subst f ls h hc
  · intro h hc
    exact altura_final_single_of_blank_nonpos f ls h hc

/-- Concrete frame for the C5 witness: 3 reported lines, both distances 1. -/
def frame_w5 : FrameState :=
  { pos_x := 0, pos_y := 0, width := 200, height := 100, overflows := false,
    num_linhas := 3, dist_sup := 1, dist_inf := 1, text := "abc" }

/-- Concrete frame for the single-driver part of the C5 witness: zero
reported lines but non-blank text and positive distances. -/
def frame_w5s : FrameState :=
  { pos_x := 0, pos_y := 0, width := 200, height := 100, overflows := false,
    num_linhas := 0, dist_sup := 1, dist_inf := 1, text := "abc" }

/-- Witness for C5 (amended): a positive line count in the two-column
driver, and the zero-lines case of the single-column driver where the
distances alone are returned. -/
theorem get_required_height_spec_witness :
    frame_w5.overflows = false ∧ (0 : ℚ) < 14 ∧
    (0 : ℚ) ≤ frame_w5.dist_sup ∧ (0 : ℚ) ≤ frame_w5.dist_inf ∧
    (0 : Int) < frame_w5.num_linhas ∧
    get_required_height frame_w5 14 = 44 ∧
    frame_w5s.num_linhas = 0 ∧
    (0 : ℚ) < frame_w5s.dist_sup + frame_w5s.dist_inf ∧
    altura_necessaria_final_single frame_w5s 14 = 2 := by
  have h := (get_required_height_spec frame_w5 14 rfl (by norm_num)
    (by norm_num [frame_w5]) (by norm_num [frame_w5])).1 (by norm_num [frame_w5])
  have hs := (get_required_height_spec frame_w5s 14 rfl (by norm_num)
    (by norm_num [frame_w5s]) (by norm_num [frame_w5s])).2.2.2.2.1 rfl
    (by norm_num [frame_w5s])
  refine ⟨rfl, by norm_num, by norm_num [frame_w5], by norm_num [frame_w5],
    by norm_num [frame_w5], ?_, rfl, by norm_num [frame_w5s], ?_⟩
  · rw [h]
    norm_num [frame_w5]
  · rw [hs]
    norm_num [frame_w5s]

end Diagramacao

namespace Diagramacao

/-! ## Overflow-chain caps (dual-columns lines 761-954, single-column
lines 341, 459-518) -/

/-- MAX_FRAMES_PER_ITEM, dual-columns line 764. -/
def MAX_FRAMES_PER_ITEM : Nat := 100

/-- MAX_OVERFLOW_PAGES_PER_TEXT, single-column line 341. -/
def MAX_OVERFLOW_PAGES_PER_TEXT : Nat := 50

/-- The chaining loop of the two-column driver (lines 767-954) reduced to
its counting skeleton: overflows n answers whether the chain still
overflows when it holds n frames, create_ok n whether creation and linking
of frame n succeed (a failure breaks the chain).  The frame counter starts
at 1 (the first frame) and the result is its final value. -/
def chain_loop_dual (overflows create_ok : Nat → Bool) (frame_counter : Nat) : Nat :=
  if h : overflows frame_counter = true ∧ frame_counter < MAX_FRAMES_PER_ITEM then
    if create_ok (frame_counter + 1) then
      chain_loop_dual overflows create_ok (frame_counter + 1)
    else frame_counter + 1
  else frame_counter
termination_by MAX_FRAMES_PER_ITEM - frame_counter
decreasing_by
  obtain ⟨-, h2⟩ := h
  omega

/-- The chaining loop of the single-column driver (lines 459-516) reduced
to its counting skeleton: each iteration adds one overflow page and one
linked frame; the loop runs while the last frame overflows and fewer than
the cap of overflow pages were created.  Returns the final
(paginas_overflow_criadas, contador_frames_vinculados) pair. -/
def chain_loop_single (overflows create_ok : Nat → Bool)
    (paginas_overflow_criadas contador_frames_vinculados : Nat) : Nat × Nat :=
  if h : overflows contador_frames_vinculados = true ∧
      paginas_overflow_criadas < MAX_OVERFLOW_PAGES_PER_TEXT then
    if create_ok (contador_frames_vinculados + 1) then
      chain_loop_single overflows create_ok (paginas_overflow_criadas + 1)
        (contador_frames_vinculados + 1)
    else (paginas_overflow_criadas + 1, contador_frames_vinculados + 1)
  else (paginas_overflow_criadas, contador_frames_vinculados)
termination_by MAX_OVERFLOW_PAGES_PER_TEXT - paginas_overflow_criadas
decreasing_by
  obtain ⟨-, h2⟩ := h
  omega

/-- The cap-breach warning of the single-column driver (line 517): shown
exactly when the number of overflow pages reached the cap. -/
def single_cap_warning (paginas_overflow_criadas : Nat) : Bool :=
  decide (MAX_OVERFLOW_PAGES_PER_TEXT ≤ paginas_overflow_criadas)

lemma chain_loop_dual_le (ov ok : Nat → Bool) :
    ∀ (n c : Nat), MAX_FRAMES_PER_ITEM - c ≤ n → c ≤ MAX_FRAMES_PER_ITEM →
      chain_loop_dual ov ok c ≤ MAX_FRAMES_PER_ITEM := by
  intro n
  induction n with
  | zero =>
    intro c hn hc
    rw [chain_loop_dual, dif_neg (by rintro ⟨-, h2⟩; omega)]
    exact hc
  | succ n ih =>
    intro c hn hc
    rw [chain_loop_dual]
    split_ifs with h1 h2
    · exact ih (c + 1) (by omega) (by omega)
    · omega
    · exact hc

lemma chain_loop_dual_pathological :
    ∀ (n c : Nat), c + n = MAX_FRAMES_PER_ITEM →
      chain_loop_dual (fun _ => true) (fun _ => true) c = MAX_FRAMES_PER_ITEM := by
  intro n
  induction n with
  | zero =>
    intro c h
    rw [chain_loop_dual, dif_neg (by rintro ⟨-, h2⟩; omega)]
    omega
  | succ n ih =>
    intro c h
    rw [chain_loop_dual, dif_pos ⟨rfl, by omega⟩, if_pos rfl]
    exact ih (c + 1) (by omega)

lemma chain_loop_single_le (ov ok : Nat → Bool) :
    ∀ (n p c : Nat), MAX_OVERFLOW_PAGES_PER_TEXT - p ≤ n →
      p ≤ MAX_OVERFLOW_PAGES_PER_TEXT →
      (chain_loop_single ov ok p c).1 ≤ MAX_OVERFLOW_PAGES_PER_TEXT := by
  intro n
  induction n with
  | zero =>
    intro p c hn hp
    rw [chain_loop_single, dif_neg (by rintro ⟨-, h2⟩; omega)]
    exact hp
  | succ n ih =>
    intro p c hn hp
    rw [chain_loop_single]
    split_ifs with h1 h2
    · exact ih (p + 1) (c + 1) (by omega) (by omega)
    · simp only
      omega
    · exact hp

lemma chain_loop_single_pathological :
    ∀ (n p c : Nat), p + n = MAX_OVERFLOW_PAGES_PER_TEXT →
      chain_loop_single (fun _ => true) (fun _ => true) p c =
        (MAX_OVERFLOW_PAGES_PER_TEXT, c + n) := by
  intro n
  induction n with
  | zero =>
    intro p c h
    rw [chain_loop_single, dif_neg (by rintro ⟨-, h2⟩; omega)]
    simp only [Nat.add_zero]
    rw [show p = MAX_OVERFLOW_PAGES_PER_TEXT by omega]
  | succ n ih =>
    intro p c h
    rw [chain_loop_single, dif_pos ⟨rfl, by omega⟩, if_pos rfl, ih (p + 1) (c + 1) (by omega)]
    rw [Prod.mk.injEq]
    constructor
    · rfl
    · omega

/-- Counterexample to C6: with pathologically long text (the oracle
reports overflow forever) the single-column driver ends its chain with the
frame counter at cap + 1 = 51 frames, not at the configured cap of 50. -/
theorem chain_cap_single_cex :
    (chain_loop_single (fun _ => true) (fun _ => true) 0 1).2 =
      MAX_OVERFLOW_PAGES_PER_TEXT + 1 ∧
    MAX_OVERFLOW_PAGES_PER_TEXT + 1 ≠ MAX_OVERFLOW_PAGES_PER_TEXT := by
  constructor
  · rw [chain_loop_single_pathological MAX_OVERFLOW_PAGES_PER_TEXT 0 1 rfl]
    omega
  · omega

/-- Claim C6 (amended): both chaining loops terminate within their caps
for every oracle behaviour; with an oracle that reports overflow forever
the two-column driver ends with exactly cap = 100 frames in the chain,
while the single-column driver creates exactly cap = 50 overflow
continuations, hence cap + 1 frames, and its cap-breach warning condition
then holds. -/
theorem chain_termination_caps :
    (∀ (ov ok : Nat → Bool) (c : Nat), c ≤ MAX_FRAMES_PER_ITEM →
      chain_loop_dual ov ok c ≤ MAX_FRAMES_PER_ITEM) ∧
    (chain_loop_dual (fun _ => true) (fun _ => true) 1 = MAX_FRAMES_PER_ITEM) ∧
    (∀ (ov ok : Nat → Bool) (p c : Nat), p ≤ MAX_OVERFLOW_PAGES_PER_TEXT →
      (chain_loop_single ov ok p c).1 ≤ MAX_OVERFLOW_PAGES_PER_TEXT) ∧
    (chain_loop_single (fun _ => true) (fun _ => true) 0 1 =
      (MAX_OVERFLOW_PAGES_PER_TEXT, MAX_OVERFLOW_PAGES_PER_TEXT + 1)) ∧
    (single_cap_warning MAX_OVERFLOW_PAGES_PER_TEXT = true) := by
  refine ⟨?_, ?_, ?_, ?_, ?_⟩
  · intro ov ok c hc
    exact chain_loop_dual_le ov ok (MAX_FRAMES_PER_ITEM - c) c (le_refl _) hc
  · exact chain_loop_dual_pathological (MAX_FRAMES_PER_ITEM - 1) 1 rfl
  · intro ov ok p c hp
    exact chain_loop_single_le ov ok (MAX_OVERFLOW_PAGES_PER_TEXT - p) p c (le_refl _) hp
  · rw [chain_loop_single_pathological MAX_OVERFLOW_PAGES_PER_TEXT 0 1 rfl,
      Nat.add_comm]
  · decide

/-- Witness for C6 at a concrete counter value. -/
theorem chain_termination_caps_witness :
    (3 : Nat) ≤ MAX_FRAMES_PER_ITEM ∧
    chain_loop_dual (fun n => decide (n % 2 = 0)) (fun _ => true) 3 ≤
      MAX_FRAMES_PER_ITEM := by
  refine ⟨by decide, ?_⟩
  exact chain_termination_caps.1 (fun n => decide (n % 2 = 0)) (fun _ => true) 3 (by decide)

end Diagramacao

namespace Diagramacao

/-! ## Text assignment (set_text_and_layout, dual-columns lines 107-129)
and per-item error isolation (dual-columns lines 689-693, single-column
lines 404-450) -/

/-- set_text_and_layout, dual-columns lines 107-129: returns false when
the named frame does not exist; otherwise runs setText, layoutText and
textOverflows, each modelled by an explicit failure flag or result, and
returns true whenever any of them raises. -/
def set_text_and_layout (frame_exists set_text_fails layout_fails : Bool)
    (overflow_result : Except Unit Bool) : Bool :=
  if !frame_exists then false
  else if set_text_fails then true
  else if layout_fails then true
  else
    match overflow_result with
    | Except.ok b => b
    | Except.error _ => true

/-- Claim C7: for an existing frame, any oracle-level failure during set
text, layout or the overflow query makes set_text_and_layout report
overflowed = true, so a failed measurement is never treated as fitting. -/
theorem set_text_and_layout_conservative (set_text_fails layout_fails : Bool)
    (overflow_result : Except Unit Bool)
    (hfail : set_text_fails = true ∨ layout_fails = true ∨
      ∃ e, overflow_result = Except.error e) :
    set_text_and_layout true set_text_fails layout_fails overflow_result = true := by
  rcases hfail with h | h | ⟨e, h⟩
  · simp [set_text_and_layout, h]
  · cases set_text_fails <;> simp [set_text_and_layout, h]
  · cases set_text_fails <;> cases layout_fails <;> simp [set_text_and_layout, h]

/-- Witness for C7: a failing overflow query is reported as overflow. -/
theorem set_text_and_layout_conservative_witness :
    (∃ e, (Except.error () : Except Unit Bool) = Except.error e) ∧
    set_text_and_layout true false false (Except.error ()) = true := by
  refine ⟨⟨(), rfl⟩, ?_⟩
  exact set_text_and_layout_conservative false false (Except.error ())
    (Or.inr (Or.inr ⟨(), rfl⟩))

/-- The per-item loop of the two-column driver around first-frame creation
(lines 587-693): an item whose first frame cannot be created is skipped
with continue and the loop moves to the next item.  Each item is paired
with the success of its first-frame creation. -/
def process_items_dual : List (String × Bool) → List String
  | [] => []
  | (it, ok) :: rest =>
    if ok then it :: process_items_dual rest else process_items_dual rest

/-- The texts loop of the single-column driver (lines 404-450): blank
texts are skipped with continue; a first-frame creation failure leaves the
loop with break, dropping the remaining texts of the section. -/
def process_texts_single : List (String × Bool) → List String
  | [] => []
  | (t, ok) :: rest =>
    if (t.data.any (fun c => !c.isWhitespace)) = false then
      process_texts_single rest
    else if ok then
      t :: process_texts_single rest
    else []

/-- The sections loop of the single-column driver (lines 343-584): all
sections are visited in order regardless of failures inside earlier
sections. -/
def process_sections_single (secs : List (List (String × Bool))) : List String :=
  (secs.map process_texts_single).flatten

/-- Counterexample to C8: in the single-column driver a creation failure
on the second text of a section drops the third text as well (the loop
breaks), instead of skipping only the failing item. -/
theorem process_texts_single_break_cex :
    process_texts_single [("a", true), ("b", false), ("c", true)] = ["a"] ∧
    (["a"] : List String) ≠ ["a", "c"] := by
  constructor
  · decide
  · decide

/-- Claim C8 (amended): in the two-column driver a first-frame creation
failure skips exactly the failing items and every other item is still
processed; in the single-column driver a creation failure abandons the
remaining texts of the current section, while later sections are processed
regardless of failures in earlier ones. -/
theorem creation_failure_isolation :
    (∀ l : List (String × Bool),
      process_items_dual l = (l.filter (fun p => p.2)).map Prod.fst) ∧
    (∀ (pre post : List (String × Bool)) (t : String),
      (∀ p ∈ pre, p.2 = true) →
      (t.data.any (fun c => !c.isWhitespace)) = true →
      process_texts_single (pre ++ (t, false) :: post) = process_texts_single pre) ∧
    (∀ (sec : List (String × Bool)) (rest : List (List (String × Bool))),
      process_sections_single (sec :: rest) =
        process_texts_single sec ++ process_sections_single rest) := by
  refine ⟨?_, ?_, ?_⟩
  · intro l
    induction l with
    | nil => rfl
    | cons p rest ih =>
      obtain ⟨s, b⟩ := p
      cases b <;> simp [process_items_dual, ih, List.filter_cons]
  · intro pre post t hpre ht
    induction pre with
    | nil =>
      simp [process_texts_single, ht]
    | cons p pre' ih =>
      obtain ⟨s, b⟩ := p
      have hb : b = true := hpre (s, b) (List.mem_cons_self _ _)
      subst hb
      have hpre' : ∀ q ∈ pre', q.2 = true := fun q hq =>
        hpre q (List.mem_cons_of_mem _ hq)
      by_cases hs : (s.data.any (fun c => !c.isWhitespace)) = false
      · simp [process_texts_single, hs, ih hpre']
      · simp [process_texts_single, hs, ih hpre']
  · intro sec rest
    simp [process_sections_single]

/-- Witness for C8 (amended): a concrete section where the second text
fails and the tail of the section is dropped. -/
theorem creation_failure_isolation_witness :
    (∀ p ∈ [("a", true)], p.2 = true) ∧
    ("b".data.any (fun c => !c.isWhitespace)) = true ∧
    process_texts_single [("a", true), ("b", false), ("c", true)] =
      process_texts_single [("a", true)] := by
  refine ⟨by decide, by decide, ?_⟩
  exact creation_failure_isolation.2.1 [("a", true)] [("c", true)] "b"
    (by decide) (by decide)

end Diagramacao
